import Mathlib

/- Shallow embedding of the LangGraph + Elasticsearch startup-search pipeline
   (src/main.ts and the Elasticsearch setup module).  The two external
   effects - the structured-output LLM calls and the Elasticsearch client -
   are modelled as explicit outcome parameters of type Except String _,
   so every node function is a pure function of its state and of the
   outcome of the external call it makes. -/

/-- Search-strategy enum of the zod SearchDecisionSchema in
decideSearchStrategy (src/main.ts). -/
inductive SearchType
  | strict
  | flexible
  deriving DecidableEq

/-- Structured output of the strategy-decision LLM call (src/main.ts). -/
structure SearchDecision where
  search_type : SearchType
  reasoning : String
  deriving DecidableEq

/-- The string value each enum member serializes to. -/
def SearchType.toStr : SearchType → String
  | .strict => "strict"
  | .flexible => "flexible"

/-- Node 1 (src/main.ts decideSearchStrategy): value written to the
searchStrategy channel.  The catch branch returns the literal string
"structured". -/
def decideSearchStrategy (outcome : Except String SearchDecision) : String :=
  match outcome with
  | .ok r => r.search_type.toStr
  | .error _ => "structured"

/-- Aggregation result of getAvailableFilters (src/main.ts): the terms
aggregations per categorical field.  The numeric stats aggregations are not
consumed by any compilation step and are omitted. -/
structure Catalog where
  industries : List String
  locations : List String
  funding_stages : List String
  business_models : List String
  lead_investors : List String
  deriving DecidableEq

/-- src/main.ts getAvailableFilters: returns the aggregations, or an empty
object when the store call fails. -/
def getAvailableFilters (store : Except String Catalog) : Catalog :=
  match store with
  | .ok aggs => aggs
  | .error _ =>
    { industries := [], locations := [], funding_stages := [],
      business_models := [], lead_investors := [] }

/-- Raw structured output of the filter-extraction LLM call, before zod
applies the field defaults (src/main.ts extractFilterValues). -/
structure RawFilterOutput where
  industry : Option (List String)
  location : Option (List String)
  funding_stage : Option (List String)
  funding_amount_gte : Option Int
  funding_amount_lte : Option Int
  lead_investor : Option (List String)
  deriving DecidableEq

/-- The FilterValuesSchema output after zod defaulting (src/main.ts). -/
structure FilterValues where
  industry : List String
  location : List String
  funding_stage : List String
  funding_amount_gte : Int
  funding_amount_lte : Int
  lead_investor : List String
  deriving DecidableEq

/-- The .default(...) annotations of FilterValuesSchema (src/main.ts). -/
def zodDefaults (r : RawFilterOutput) : FilterValues :=
  { industry := r.industry.getD [],
    location := r.location.getD [],
    funding_stage := r.funding_stage.getD [],
    funding_amount_gte := r.funding_amount_gte.getD 0,
    funding_amount_lte := r.funding_amount_lte.getD 100000000,
    lead_investor := r.lead_investor.getD [] }

/-- src/main.ts extractFilterValues: serializes the catalog into the prompt,
invokes the structured-output LLM and returns the parsed output directly.
There is no code-level validation of the returned values against the
catalog, and no try/catch: an LLM failure propagates to the caller. -/
def extractFilterValues (_catalog : Catalog)
    (llm : Except String RawFilterOutput) : Except String FilterValues :=
  match llm with
  | .ok raw => .ok (zodDefaults raw)
  | .error e => .error e

/-- The categorical fields that compile to terms clauses. -/
inductive CatField
  | industry
  | location
  | funding_stage
  | lead_investor
  deriving DecidableEq

/-- A compiled query clause: a terms membership test, a numeric range with
optional bounds, or the semantic-similarity component. -/
inductive Clause
  | termsClause (field : CatField) (vals : List String)
  | rangeClause (field : String) (gte : Option Int) (lte : Option Int)
  | semanticClause (field : String) (query : String)
  deriving DecidableEq

/-- Lower bound of a range clause, none for other clauses. -/
def Clause.gteBound : Clause → Option Int
  | .rangeClause _ g _ => g
  | _ => none

/-- Upper bound of a range clause, none for other clauses. -/
def Clause.lteBound : Clause → Option Int
  | .rangeClause _ _ l => l
  | _ => none

/-- src/main.ts prepareFlexibleParams, the range should-clause.  JS
truthiness makes the guard x && x > 0 equivalent to x > 0, and
x && x < 100000000 equivalent to x ≠ 0 ∧ x < 100000000. -/
def flexibleRangeClause (v : FilterValues) : Option Clause :=
  if v.funding_amount_gte > 0 ∨
      (v.funding_amount_lte ≠ 0 ∧ v.funding_amount_lte < 100000000) then
    some (Clause.rangeClause "funding_amount"
      (if v.funding_amount_gte > 0 then some v.funding_amount_gte else none)
      (if v.funding_amount_lte ≠ 0 ∧ v.funding_amount_lte < 100000000 then
        some v.funding_amount_lte
      else none))
  else none

/-- src/main.ts prepareFlexibleParams: the should-clause list, in source
order (industry, funding_stage, location, lead_investor, range); each terms
clause is pushed only when the extracted value list is non-empty. -/
def flexibleShouldClauses (v : FilterValues) : List Clause :=
  (if v.industry.isEmpty then [] else
    [Clause.termsClause CatField.industry v.industry]) ++
  (if v.funding_stage.isEmpty then [] else
    [Clause.termsClause CatField.funding_stage v.funding_stage]) ++
  (if v.location.isEmpty then [] else
    [Clause.termsClause CatField.location v.location]) ++
  (if v.lead_investor.isEmpty then [] else
    [Clause.termsClause CatField.lead_investor v.lead_investor]) ++
  (flexibleRangeClause v).toList

/-- The bool query of the flexible dynamic query (src/main.ts). -/
structure BoolQuery where
  must : List Clause
  should : List Clause
  minimum_should_match : Nat
  deriving DecidableEq

/-- The dynamic query object built by prepareFlexibleParams (src/main.ts). -/
structure DynamicQuery where
  size : Nat
  boolQuery : BoolQuery
  deriving DecidableEq

/-- src/main.ts prepareFlexibleParams success path: size 5, a mandatory
semantic must clause, the extracted should clauses, and a hard-coded
minimum_should_match of 2. -/
def buildDynamicQuery (input : String) (v : FilterValues) : DynamicQuery :=
  { size := 5,
    boolQuery :=
      { must := [Clause.semanticClause "semantic_field" input],
        should := flexibleShouldClauses v,
        minimum_should_match := 2 } }

/-- The searchParams object of the strict path (src/main.ts
prepareStrictParams). -/
structure StrictParams where
  query_text : String
  industry : List String
  location : List String
  funding_stage : List String
  funding_amount_gte : Int
  funding_amount_lte : Int
  lead_investor : List String
  template_id : String
  search_type : String
  deriving DecidableEq

/-- src/main.ts prepareStrictParams success path.  On a JS number,
x || fallback yields the fallback exactly when x is 0, so the gte
defaulting is the identity while an extracted lte of 0 becomes
100000000. -/
def toStrictParams (input : String) (v : FilterValues) : StrictParams :=
  { query_text := input,
    industry := v.industry,
    location := v.location,
    funding_stage := v.funding_stage,
    funding_amount_gte := v.funding_amount_gte,
    funding_amount_lte :=
      if v.funding_amount_lte = 0 then 100000000 else v.funding_amount_lte,
    lead_investor := v.lead_investor,
    template_id := "startup-strict-search-template",
    search_type := "strict_template_rrf" }

/-- The filter list of the strict search template's second retriever
(createSearchTemplates in the Elasticsearch setup module).  A mustache
section over a list renders only when the list is non-empty (it then
repeats its body once per element, and each repetition serializes the whole
parameter via toJson, so the identical copies are modelled as one clause).
A section over a number renders only when the number is nonzero.  The range
block is gated solely on funding_amount_gte, and the lte bound is included
whenever funding_amount_lte is nonzero - including the default
100000000. -/
def strictFilterClauses (p : StrictParams) : List Clause :=
  (if p.industry.isEmpty then [] else
    [Clause.termsClause CatField.industry p.industry]) ++
  (if p.location.isEmpty then [] else
    [Clause.termsClause CatField.location p.location]) ++
  (if p.funding_stage.isEmpty then [] else
    [Clause.termsClause CatField.funding_stage p.funding_stage]) ++
  (if p.funding_amount_gte = 0 then []
   else
    [Clause.rangeClause "funding_amount" (some p.funding_amount_gte)
      (if p.funding_amount_lte = 0 then none
       else some p.funding_amount_lte)]) ++
  (if p.lead_investor.isEmpty then [] else
    [Clause.termsClause CatField.lead_investor p.lead_investor])

/-- The rendered strict search template: an RRF retriever over a semantic
retriever and a filtered retriever, with the literal rank_window_size 100
and rank_constant 20 of the template source. -/
structure StrictRendered where
  size : Nat
  semanticRetriever : Clause
  filterRetriever : List Clause
  rank_window_size : Nat
  rank_constant : Nat
  deriving DecidableEq

/-- Rendering of the strict mustache template at the given parameters. -/
def renderStrictTemplate (p : StrictParams) : StrictRendered :=
  { size := 5,
    semanticRetriever := Clause.semanticClause "semantic_field" p.query_text,
    filterRetriever := strictFilterClauses p,
    rank_window_size := 100,
    rank_constant := 20 }

/-- The searchParams channel value: the strict flat params object, the
flexible params object with its dynamic query, or the bare empty object
that prepareStrictParams returns from its catch branch. -/
inductive SearchParamsObj
  | strictParams (p : StrictParams)
  | flexibleParams (query_text : String) (dynamic_query : DynamicQuery)
      (extracted_filters : FilterValues) (search_type : String)
  | emptyObj
  deriving DecidableEq

/-- A LangGraph state update: every channel a node may write, none meaning
the node's returned object did not mention that channel. -/
structure VCStateUpdate where
  input : Option String := none
  searchStrategy : Option String := none
  searchParams : Option SearchParamsObj := none
  results : Option (List String) := none
  final : Option String := none
  deriving DecidableEq

/-- The VCState annotation of src/main.ts; documents are modelled by opaque
payload strings. -/
structure VCState where
  input : Option String
  searchStrategy : Option String
  searchParams : Option SearchParamsObj
  results : Option (List String)
  final : Option String
  deriving DecidableEq

/-- Node 1 as a state update: only the searchStrategy channel is written. -/
def decideStrategyUpdate (outcome : Except String SearchDecision) :
    VCStateUpdate :=
  { searchStrategy := some (decideSearchStrategy outcome) }

/-- src/main.ts prepareStrictParams: on success the flat params object, on
extraction failure the catch branch writes searchParams as an empty
object. -/
def prepareStrictParamsResult (input : String)
    (extraction : Except String FilterValues) : SearchParamsObj :=
  match extraction with
  | .ok v => SearchParamsObj.strictParams (toStrictParams input v)
  | .error _ => SearchParamsObj.emptyObj

/-- Node 2A as a state update: only the searchParams channel is written. -/
def prepareStrictUpdate (input : String)
    (extraction : Except String FilterValues) : VCStateUpdate :=
  { searchParams := some (prepareStrictParamsResult input extraction) }

/-- Node 2B (src/main.ts prepareFlexibleParams): on success only the
searchParams channel is written; the catch branch returns a bare empty
object, so on extraction failure no channel is written at all. -/
def prepareFlexibleUpdate (input : String)
    (extraction : Except String FilterValues) : VCStateUpdate :=
  match extraction with
  | .ok v =>
    { searchParams := some (SearchParamsObj.flexibleParams input
        (buildDynamicQuery input v) v "flexible_dynamic_llm") }
  | .error _ => {}

/-- Node 3 (src/main.ts executeSearch).  The node reads
state.searchParams.search_type before entering its try block, so when the
searchParams channel was never written the node throws.  Inside the try,
any store failure is caught and mapped to an empty results list. -/
def executeSearchRun (sp : Option SearchParamsObj)
    (store : Except String (List String)) : Except String VCStateUpdate :=
  match sp with
  | none => Except.error "TypeError: state.searchParams is undefined"
  | some _ =>
    match store with
    | .ok hits => Except.ok { results := some hits }
    | .error _ => Except.ok { results := some [] }

/-- Plural suffix of the result header (src/main.ts visualizeResults). -/
def startupPlural (n : Nat) : String := if 1 < n then "s" else ""

/-- src/main.ts visualizeResults, with the per-document field lines
abstracted to the opaque document payload. -/
def formatResults (rs : List String) : String :=
  "Found " ++ toString rs.length ++ " startup" ++ startupPlural rs.length ++
    " matching your criteria:\n\n" ++
    String.join (rs.enum.map (fun p => toString (p.1 + 1) ++ ". " ++ p.2 ++ "\n\n"))

/-- Node 4 as a state update: only the final channel is written. -/
def visualizeUpdate (results : Option (List String)) : VCStateUpdate :=
  { final := some (formatResults (results.getD [])) }

/-- Channel semantics of the annotation: a written value replaces the old
one, an unwritten channel keeps it. -/
def updChannel {α : Type} (upd old : Option α) : Option α :=
  match upd with
  | some x => some x
  | none => old

/-- Apply a node's returned update to the shared state. -/
def applyUpdate (s : VCState) (u : VCStateUpdate) : VCState :=
  { input := updChannel u.input s.input,
    searchStrategy := updChannel u.searchStrategy s.searchStrategy,
    searchParams := updChannel u.searchParams s.searchParams,
    results := updChannel u.results s.results,
    final := updChannel u.final s.final }

/-- The conditional-edge map of the graph (src/main.ts addConditionalEdges):
only the branch values "strict" and "flexible" are mapped. -/
def routeTarget (strategy : String) : Option String :=
  if strategy = "strict" then some "prepareStrictParams"
  else if strategy = "flexible" then some "prepareFlexibleParams"
  else none

/-- The state produced by app.invoke with only the input channel set. -/
def mkInitialState (q : String) : VCState :=
  { input := some q, searchStrategy := none, searchParams := none,
    results := none, final := none }

/-- One run of the compiled graph (src/main.ts main): decideStrategy, the
conditional edge, one prepare node, executeSearch, visualizeResults.  A
branch value missing from the conditional-edge map makes the graph itself
throw. -/
def runWorkflow (init : VCState) (decision : Except String SearchDecision)
    (extraction : Except String FilterValues)
    (store : Except String (List String)) : Except String VCState :=
  let s1 := applyUpdate init (decideStrategyUpdate decision)
  match routeTarget (s1.searchStrategy.getD "") with
  | none => Except.error "unknown branch value in conditional edges"
  | some node =>
    let q := s1.input.getD ""
    let u2 := if node = "prepareStrictParams" then
        prepareStrictUpdate q extraction
      else prepareFlexibleUpdate q extraction
    let s2 := applyUpdate s1 u2
    match executeSearchRun s2.searchParams store with
    | .error e => Except.error e
    | .ok u3 =>
      let s3 := applyUpdate s2 u3
      Except.ok (applyUpdate s3 (visualizeUpdate s3.results))

/-- Modelled from the spec: Reciprocal Rank Fusion is computed inside the
Elasticsearch store (only the strict template of the setup module declares
it, with rank_constant 20 and rank_window_size 100), so the fusion
arithmetic is not in src/.  1-based rank of a document in a ranked list,
starting the count at i. -/
def rankFrom (d : String) : List String → Nat → Option Nat
  | [], _ => none
  | x :: xs, i => if x = d then some i else rankFrom d xs (i + 1)

/-- Modelled from the spec: 1-based rank of a document in a ranked list. -/
def rankOf (d : String) (l : List String) : Option Nat := rankFrom d l 1

/-- Modelled from the spec: a contributing list adds 1/(k+r) for a document
at 1-based rank r, and 0 for an absent document. -/
def rrfListContribution (k : Nat) (d : String) (l : List String) : ℚ :=
  match rankOf d l with
  | some r => 1 / ((k : ℚ) + (r : ℚ))
  | none => 0

/-- Modelled from the spec: the fused RRF score sums the contributions over
all contributing lists. -/
def rrfFusedScore (k : Nat) (d : String) (lists : List (List String)) : ℚ :=
  (lists.map (rrfListContribution k d)).sum

/-- True on a terms clause for the given field. -/
def isTermsFor (f : CatField) : Clause → Bool
  | .termsClause g _ => decide (g = f)
  | _ => false

/-- Whether a clause list holds a terms clause for the given field. -/
def containsTermsFor (f : CatField) (cs : List Clause) : Bool :=
  cs.any (isTermsFor f)

/-- The extracted value list of a categorical field. -/
def catValues (v : FilterValues) : CatField → List String
  | .industry => v.industry
  | .location => v.location
  | .funding_stage => v.funding_stage
  | .lead_investor => v.lead_investor

/-- C1: the pipeline does not always return a result set.  On the flexible
path, when the filter-extraction call fails, the prepare node writes no
searchParams and the search node then dereferences the never-written
channel and raises, propagating an error to the caller; only a pure store
failure with well-formed params yields the empty result list the claim
describes. -/
theorem executeSearch_crashes_after_flexible_prep_failure :
    ∀ (q reason e m : String) (st : Except String (List String))
      (v : FilterValues),
      runWorkflow (mkInitialState q)
          (Except.ok ⟨SearchType.flexible, reason⟩) (Except.error e) st
        = Except.error "TypeError: state.searchParams is undefined" ∧
      ∃ s, runWorkflow (mkInitialState q)
          (Except.ok ⟨SearchType.flexible, reason⟩) (Except.ok v)
            (Except.error m)
        = Except.ok s ∧ s.results = some [] := by
  intro q reason e m st v
  exact ⟨rfl, ⟨_, rfl, rfl⟩⟩

/-- C2: on classification failure the router falls back to the string
"structured", which is neither "strict" nor any key of the
conditional-edge map, so the run errors out instead of taking the strict
branch. -/
theorem classifier_failure_yields_unroutable_strategy :
    ∀ (e q : String) (ex : Except String FilterValues)
      (st : Except String (List String)),
      decideSearchStrategy (Except.error e) = "structured" ∧
      decideSearchStrategy (Except.error e) ≠ "strict" ∧
      routeTarget "structured" = none ∧
      runWorkflow (mkInitialState q) (Except.error e) ex st
        = Except.error "unknown branch value in conditional edges" := by
  intro e q ex st
  refine ⟨rfl, ?_, rfl, rfl⟩
  show ("structured" : String) ≠ "strict"
  decide

/-- C3 counterexample: with exactly one populated should-clause the emitted
minimum_should_match is still 2, not the smaller of 2 and the clause
count. -/
theorem minimum_should_match_not_relaxed :
    (buildDynamicQuery "q"
        { industry := ["Fintech"], location := [], funding_stage := [],
          funding_amount_gte := 0, funding_amount_lte := 100000000,
          lead_investor := [] }).boolQuery.minimum_should_match
      ≠ min 2 ((buildDynamicQuery "q"
        { industry := ["Fintech"], location := [], funding_stage := [],
          funding_amount_gte := 0, funding_amount_lte := 100000000,
          lead_investor := [] }).boolQuery.should.length) := by
  decide

/-- C3 amended: the flexible compiler hard-codes minimum_should_match to 2
for every input, regardless of how many should-clauses are populated. -/
theorem minimum_should_match_always_two :
    ∀ (input : String) (v : FilterValues),
      (buildDynamicQuery input v).boolQuery.minimum_should_match = 2 := by
  intro input v
  rfl

/-- C4 counterexample: a categorical value produced by the capability that
is absent from the catalog is returned unchanged by the extraction
helper - the catalog only reaches the prompt, never a validation step. -/
theorem hallucinated_value_not_dropped :
    extractFilterValues
        { industries := ["Fintech"], locations := ["San Francisco"],
          funding_stages := ["Series A"], business_models := ["SaaS"],
          lead_investors := ["Sequoia Capital"] }
        (Except.ok
          { industry := some ["Underwater Basket Weaving"], location := none,
            funding_stage := none, funding_amount_gte := none,
            funding_amount_lte := none, lead_investor := none })
      = Except.ok
          { industry := ["Underwater Basket Weaving"], location := [],
            funding_stage := [], funding_amount_gte := 0,
            funding_amount_lte := 100000000, lead_investor := [] } ∧
    (["Fintech"] : List String).contains "Underwater Basket Weaving"
      = false := by
  refine ⟨rfl, ?_⟩
  decide

/-- C4 amended: extraction returns exactly the capability output after the
schema defaults are applied; the catalog is not consulted to drop
values. -/
theorem extraction_passes_values_through :
    ∀ (c : Catalog) (raw : RawFilterOutput),
      extractFilterValues c (Except.ok raw) = Except.ok (zodDefaults raw) := by
  intro c raw
  rfl

/-- C5: with the rank constant 20 declared by the strict template, a
document ranked r1 and r2 in two contributing lists scores
1/(20+r1) + 1/(20+r2), strictly more than a document appearing only in the
better-ranked of the two lists. -/
theorem rrf_two_lists_beat_single_list :
    ∀ (p : StrictParams) (d : String) (l1 l2 : List String) (r1 r2 : Nat),
      rankOf d l1 = some r1 → rankOf d l2 = some r2 →
      (renderStrictTemplate p).rank_constant = 20 ∧
      rrfFusedScore 20 d [l1, l2]
        = 1 / ((20 : ℚ) + (r1 : ℚ)) + 1 / ((20 : ℚ) + (r2 : ℚ)) ∧
      rrfFusedScore 20 d [l1, l2]
        > rrfFusedScore 20 d [if r1 ≤ r2 then l1 else l2] := by
  intro p d l1 l2 r1 r2 h1 h2
  have c1 : rrfListContribution 20 d l1 = 1 / ((20 : ℚ) + (r1 : ℚ)) := by
    simp [rrfListContribution, h1]
  have c2 : rrfListContribution 20 d l2 = 1 / ((20 : ℚ) + (r2 : ℚ)) := by
    simp [rrfListContribution, h2]
  have hsum : rrfFusedScore 20 d [l1, l2]
      = 1 / ((20 : ℚ) + (r1 : ℚ)) + 1 / ((20 : ℚ) + (r2 : ℚ)) := by
    simp [rrfFusedScore, c1, c2]
  have p1 : 0 < 1 / ((20 : ℚ) + (r1 : ℚ)) := by positivity
  have p2 : 0 < 1 / ((20 : ℚ) + (r2 : ℚ)) := by positivity
  refine ⟨rfl, hsum, ?_⟩
  by_cases hle : r1 ≤ r2
  · have hone : rrfFusedScore 20 d [if r1 ≤ r2 then l1 else l2]
        = 1 / ((20 : ℚ) + (r1 : ℚ)) := by
      simp [hle, rrfFusedScore, c1]
    rw [hsum, hone]
    linarith
  · have hone : rrfFusedScore 20 d [if r1 ≤ r2 then l1 else l2]
        = 1 / ((20 : ℚ) + (r2 : ℚ)) := by
      simp [hle, rrfFusedScore, c2]
    rw [hsum, hone]
    linarith

/-- C5 witness: the two-list RRF facts evaluated at a document ranked first
in one list and second in another. -/
theorem rrf_two_lists_beat_single_list_witness :
    (renderStrictTemplate
        { query_text := "q", industry := [], location := [],
          funding_stage := [], funding_amount_gte := 0,
          funding_amount_lte := 100000000, lead_investor := [],
          template_id := "startup-strict-search-template",
          search_type := "strict_template_rrf" }).rank_constant = 20 ∧
    rrfFusedScore 20 "a" [["a"], ["b", "a"]]
      = 1 / ((20 : ℚ) + ((1 : Nat) : ℚ)) + 1 / ((20 : ℚ) + ((2 : Nat) : ℚ)) ∧
    rrfFusedScore 20 "a" [["a"], ["b", "a"]]
      > rrfFusedScore 20 "a" [if (1 : Nat) ≤ 2 then ["a"] else ["b", "a"]] :=
  rrf_two_lists_beat_single_list
    { query_text := "q", industry := [], location := [],
      funding_stage := [], funding_amount_gte := 0,
      funding_amount_lte := 100000000, lead_investor := [],
      template_id := "startup-strict-search-template",
      search_type := "strict_template_rrf" }
    "a" ["a"] ["b", "a"] 1 2 (by decide) (by decide)

/-- C6 counterexample: the strict template renders the range block whenever
the gte parameter is nonzero and then always includes the lte bound - even
when it equals the unconstrained default 100000000, which therefore acts as
a real upper-bound filter. -/
theorem strict_template_emits_default_lte :
    Clause.rangeClause "funding_amount" (some 10000000) (some 100000000)
      ∈ strictFilterClauses
          (toStrictParams "q"
            { industry := [], location := [], funding_stage := [],
              funding_amount_gte := 10000000,
              funding_amount_lte := 100000000, lead_investor := [] }) := by
  decide

/-- C6 amended: the flexible path omits bounds equal to the defaults, while
the strict template omits the whole range block only when the gte parameter
is zero and otherwise keeps whatever lte value is present, the default
100000000 included. -/
theorem range_default_bound_omission_amended :
    (∀ (v : FilterValues) (c : Clause), flexibleRangeClause v = some c →
        c.gteBound ≠ some 0 ∧ c.lteBound ≠ some 100000000) ∧
    (∀ p : StrictParams, p.funding_amount_gte ≠ 0 →
        Clause.rangeClause "funding_amount" (some p.funding_amount_gte)
            (if p.funding_amount_lte = 0 then none
             else some p.funding_amount_lte)
          ∈ strictFilterClauses p) := by
  constructor
  · intro v c h
    by_cases hg : v.funding_amount_gte > 0 <;>
      by_cases hl : v.funding_amount_lte ≠ 0 ∧
          v.funding_amount_lte < 100000000 <;>
        simp [flexibleRangeClause, hg, hl] at h
    all_goals
      subst h
    all_goals
      constructor <;> simp [Clause.gteBound, Clause.lteBound] <;> omega
  · intro p hp
    simp [strictFilterClauses, hp]

/-- C6 amended witness: the flexible clause for gte 5000000 keeps no default
bound, and the strict clause for a nonzero gte keeps its lte. -/
theorem range_default_bound_omission_amended_witness :
    ((Clause.rangeClause "funding_amount" (some 5000000) none).gteBound
        ≠ some 0 ∧
      (Clause.rangeClause "funding_amount" (some 5000000) none).lteBound
        ≠ some 100000000) ∧
    Clause.rangeClause "funding_amount" (some ((10000000 : Int)))
        (if (100000000 : Int) = 0 then none else some 100000000)
      ∈ strictFilterClauses
          { query_text := "q", industry := [], location := [],
            funding_stage := [], funding_amount_gte := 10000000,
            funding_amount_lte := 100000000, lead_investor := [],
            template_id := "startup-strict-search-template",
            search_type := "strict_template_rrf" } :=
  ⟨range_default_bound_omission_amended.1
      { industry := [], location := [], funding_stage := [],
        funding_amount_gte := 5000000, funding_amount_lte := 100000000,
        lead_investor := [] }
      (Clause.rangeClause "funding_amount" (some 5000000) none) (by decide),
    range_default_bound_omission_amended.2
      { query_text := "q", industry := [], location := [],
        funding_stage := [], funding_amount_gte := 10000000,
        funding_amount_lte := 100000000, lead_investor := [],
        template_id := "startup-strict-search-template",
        search_type := "strict_template_rrf" } (by decide)⟩

/-- Any clause list of the shape if-empty-then-nothing-else-one-terms-clause
holds a terms clause for f exactly when it is populated and for f itself. -/
theorem containsTermsFor_ite_terms (f g : CatField) (c : Prop)
    [Decidable c] (vs : List String) :
    containsTermsFor f (if c then [] else [Clause.termsClause g vs])
      = if c then false else decide (g = f) := by
  split_ifs <;> simp [containsTermsFor, isTermsFor]

/-- A guarded singleton range clause never holds a terms clause. -/
theorem containsTermsFor_ite_range (f : CatField) (c : Prop) [Decidable c]
    (s : String) (g l : Option Int) :
    containsTermsFor f (if c then [] else [Clause.rangeClause s g l])
      = false := by
  split_ifs <;> simp [containsTermsFor, isTermsFor]

/-- The optional flexible range clause never holds a terms clause. -/
theorem containsTermsFor_flexibleRange (f : CatField) (v : FilterValues) :
    containsTermsFor f (flexibleRangeClause v).toList = false := by
  unfold flexibleRangeClause
  split_ifs <;> simp [containsTermsFor, isTermsFor]

/-- containsTermsFor distributes over list concatenation. -/
theorem containsTermsFor_append (f : CatField) (a b : List Clause) :
    containsTermsFor f (a ++ b)
      = (containsTermsFor f a || containsTermsFor f b) := by
  simp [containsTermsFor]

/-- C7: a field whose extracted value set is empty yields no terms clause
for that field, neither among the flexible should-clauses nor among the
strict template's filter clauses. -/
theorem empty_value_set_no_terms_clause :
    ∀ (input : String) (v : FilterValues) (f : CatField),
      catValues v f = [] →
      containsTermsFor f (flexibleShouldClauses v) = false ∧
      containsTermsFor f
        (strictFilterClauses (toStrictParams input v)) = false := by
  intro input v f h
  cases f <;>
    simp only [catValues] at h <;>
    constructor <;>
    simp [flexibleShouldClauses, strictFilterClauses, toStrictParams,
      containsTermsFor_append, containsTermsFor_ite_terms,
      containsTermsFor_ite_range, containsTermsFor_flexibleRange, h]

/-- C7 witness: the fully-unconstrained extraction yields no industry terms
clause on either path. -/
theorem empty_value_set_no_terms_clause_witness :
    containsTermsFor CatField.industry
        (flexibleShouldClauses
          { industry := [], location := [], funding_stage := [],
            funding_amount_gte := 0, funding_amount_lte := 100000000,
            lead_investor := [] }) = false ∧
    containsTermsFor CatField.industry
        (strictFilterClauses (toStrictParams "q"
          { industry := [], location := [], funding_stage := [],
            funding_amount_gte := 0, funding_amount_lte := 100000000,
            lead_investor := [] })) = false :=
  empty_value_set_no_terms_clause "q"
    { industry := [], location := [], funding_stage := [],
      funding_amount_gte := 0, funding_amount_lte := 100000000,
      lead_investor := [] }
    CatField.industry rfl

/-- C8 counterexample: an extraction failure propagates out of the helper
instead of yielding the unconstrained ConstraintSet; the strict prep node
then writes an empty params object and the flexible prep node writes
nothing. -/
theorem extraction_failure_not_unconstrained :
    extractFilterValues
        { industries := ["Fintech"], locations := [], funding_stages := [],
          business_models := [], lead_investors := [] }
        (Except.error "boom") = Except.error "boom" ∧
    extractFilterValues
        { industries := ["Fintech"], locations := [], funding_stages := [],
          business_models := [], lead_investors := [] }
        (Except.error "boom")
      ≠ Except.ok
          { industry := [], location := [], funding_stage := [],
            funding_amount_gte := 0, funding_amount_lte := 100000000,
            lead_investor := [] } ∧
    prepareStrictParamsResult "q" (Except.error "boom")
      = SearchParamsObj.emptyObj ∧
    prepareFlexibleUpdate "q" (Except.error "boom")
      = ({} : VCStateUpdate) :=
  ⟨rfl, fun h => Except.noConfusion h, rfl, rfl⟩

/-- C8 amended: on extraction failure the strict path carries an empty
params object and the flexible path writes no searchParams at all; running
the search with the empty object still yields the empty result list once
the store call fails. -/
theorem extraction_failure_empty_params :
    ∀ (q e m : String),
      prepareStrictParamsResult q (Except.error e)
        = SearchParamsObj.emptyObj ∧
      (prepareFlexibleUpdate q (Except.error e)).searchParams = none ∧
      executeSearchRun (some SearchParamsObj.emptyObj) (Except.error m)
        = Except.ok { results := some [] } := by
  intro q e m
  exact ⟨rfl, rfl, rfl⟩

/-- C9 counterexample: a range extracted with gte greater than lte is
compiled as-is into both the flexible should-list and the strict filter
list; no validation drops it. -/
theorem malformed_range_emitted :
    flexibleRangeClause
        { industry := [], location := [], funding_stage := [],
          funding_amount_gte := 20000000, funding_amount_lte := 10000000,
          lead_investor := [] }
      = some (Clause.rangeClause "funding_amount" (some 20000000)
          (some 10000000)) ∧
    Clause.rangeClause "funding_amount" (some 20000000) (some 10000000)
      ∈ strictFilterClauses (toStrictParams "q"
          { industry := [], location := [], funding_stage := [],
            funding_amount_gte := 20000000, funding_amount_lte := 10000000,
            lead_investor := [] }) ∧
    (20000000 : Int) > 10000000 := by
  refine ⟨by decide, by decide, by decide⟩

/-- C9 amended: the compiler performs no gte/lte ordering validation - any
positive gte together with a nonzero lte below the default is emitted
verbatim, whether or not gte ≤ lte. -/
theorem malformed_range_passthrough :
    ∀ v : FilterValues, v.funding_amount_gte > 0 →
      v.funding_amount_lte ≠ 0 → v.funding_amount_lte < 100000000 →
      flexibleRangeClause v
        = some (Clause.rangeClause "funding_amount"
            (some v.funding_amount_gte) (some v.funding_amount_lte)) := by
  intro v h1 h2 h3
  simp [flexibleRangeClause, h1, h2, h3]

/-- C9 amended witness: the pass-through evaluated at an inverted range. -/
theorem malformed_range_passthrough_witness :
    flexibleRangeClause
        { industry := [], location := [], funding_stage := [],
          funding_amount_gte := 20000000, funding_amount_lte := 10000000,
          lead_investor := [] }
      = some (Clause.rangeClause "funding_amount" (some 20000000)
          (some 10000000)) :=
  malformed_range_passthrough
    { industry := [], location := [], funding_stage := [],
      funding_amount_gte := 20000000, funding_amount_lte := 10000000,
      lead_investor := [] }
    (by decide) (by decide) (by decide)

/-- C10: each node writes only its own state channel (decideStrategy the
searchStrategy, the prepare nodes the searchParams, executeSearch the
results, visualizeResults the final), and the input text of a run is never
modified by any node. -/
theorem nodes_write_only_their_channel :
    (∀ o : Except String SearchDecision,
        (decideStrategyUpdate o).input = none ∧
        (decideStrategyUpdate o).searchParams = none ∧
        (decideStrategyUpdate o).results = none ∧
        (decideStrategyUpdate o).final = none) ∧
    (∀ (q : String) (ex : Except String FilterValues),
        (prepareStrictUpdate q ex).input = none ∧
        (prepareStrictUpdate q ex).searchStrategy = none ∧
        (prepareStrictUpdate q ex).results = none ∧
        (prepareStrictUpdate q ex).final = none) ∧
    (∀ (q : String) (ex : Except String FilterValues),
        (prepareFlexibleUpdate q ex).input = none ∧
        (prepareFlexibleUpdate q ex).searchStrategy = none ∧
        (prepareFlexibleUpdate q ex).results = none ∧
        (prepareFlexibleUpdate q ex).final = none) ∧
    (∀ (sp : Option SearchParamsObj) (st : Except String (List String)),
        ∃ (rs : List String) (msg : String),
          executeSearchRun sp st = Except.error msg ∨
          executeSearchRun sp st = Except.ok { results := some rs }) ∧
    (∀ rs : Option (List String),
        (visualizeUpdate rs).input = none ∧
        (visualizeUpdate rs).searchStrategy = none ∧
        (visualizeUpdate rs).searchParams = none ∧
        (visualizeUpdate rs).results = none) ∧
    (∀ (q : String) (d : Except String SearchDecision)
        (ex : Except String FilterValues)
        (st : Except String (List String)),
        (match runWorkflow (mkInitialState q) d ex st with
          | Except.ok s => s.input
          | Except.error _ => some q) = some q) := by
  refine ⟨?_, ?_, ?_, ?_, ?_, ?_⟩
  · intro o
    exact ⟨rfl, rfl, rfl, rfl⟩
  · intro q ex
    exact ⟨rfl, rfl, rfl, rfl⟩
  · intro q ex
    cases ex <;> exact ⟨rfl, rfl, rfl, rfl⟩
  · intro sp st
    cases sp with
    | none =>
      exact ⟨[], "TypeError: state.searchParams is undefined", Or.inl rfl⟩
    | some p =>
      cases st with
      | ok hits => exact ⟨hits, "unused", Or.inr rfl⟩
      | error e => exact ⟨[], "unused", Or.inr rfl⟩
  · intro rs
    exact ⟨rfl, rfl, rfl, rfl⟩
  · intro q d ex st
    cases d with
    | error e => rfl
    | ok r =>
      obtain ⟨ty, rsn⟩ := r
      cases ty <;> cases ex <;> cases st <;> rfl
